import Mathlib

/-!
# Verification of the Kubernetes reflexive remediation agent

This file gives a shallow embedding, in Lean 4, of the core logic of the
autonomous Kubernetes remediation repository (safe executor, security
validator, performance tracker, strategy store, episodic memory, observer,
pod-type detection, and the orchestration graph), translated from the Python
sources, and proves or refutes the specification claims about them.

Conventions:
* Python floats are modelled as rationals (`ℚ`); the arithmetic involved is
  exact decimal arithmetic, so this is faithful.
* Python strings are Lean `String`s; case folding is modelled on ASCII, which
  covers every string the system manipulates (kubectl command words and
  pod names).
* SQLite tables are modelled as Lean lists in insertion order; `AVG` over a
  column is an explicit mean.
* Subprocess execution and LLM calls are modelled by oracles (functions
  supplied as parameters); the embedding records whether a child process
  would be spawned.
-/

/-! ## Small string utilities (List Char based, so that everything computes) -/

/-- ASCII lowercasing of a string, modelling Python str.lower on the ASCII
strings handled by the system. -/
def lowerStr (s : String) : String := ⟨s.data.map Char.toLower⟩

/-- Strip whitespace from both ends of a character list. -/
def trimChars (l : List Char) : List Char :=
  ((l.dropWhile Char.isWhitespace).reverse.dropWhile Char.isWhitespace).reverse

/-- Python str.strip: remove leading and trailing whitespace. -/
def stripStr (s : String) : String := ⟨trimChars s.data⟩

/-- Whether `p` occurs as a contiguous substring of `s` (Python `in`). -/
def containsChars (p : List Char) : List Char → Bool
  | [] => p.isPrefixOf []
  | c :: rest => p.isPrefixOf (c :: rest) || containsChars p rest

/-- Substring test on strings (Python `sub in s`). -/
def containsSub (sub s : String) : Bool := containsChars sub.data s.data

/-- String prefix test (Python str.startswith). -/
def startsWithStr (p s : String) : Bool := p.data.isPrefixOf s.data

/-- The leading whitespace-delimited token of a string.  This renders the
specification's phrase "the command's leading token"; it is not part of the
source code, which tests a plain prefix instead. -/
def leadingToken (s : String) : String :=
  ⟨(s.data.dropWhile Char.isWhitespace).takeWhile (fun c => !c.isWhitespace)⟩

/-! ## KubectlSecurityValidator (real_kubectl_executor.py)

`forbidden_commands` is the validator's blocklist, verbatim.  The risk-tier
classification (high/medium/low) computed further down `validate_command`
does not influence whether a command is blocked, and no claim depends on it,
so the embedding records only the safety verdict. -/

def forbidden_commands : List String :=
  ["delete namespace", "delete node", "delete persistentvolume", "delete pv",
   "delete clusterrole", "delete clusterrolebinding",
   "delete customresourcedefinition", "delete crd"]

/-- The six forbidden operations listed by the specification (the code's
blocklist additionally holds the two abbreviations `delete pv` and
`delete crd`). -/
def spec_forbidden_operations : List String :=
  ["delete namespace", "delete node", "delete persistentvolume",
   "delete clusterrole", "delete clusterrolebinding",
   "delete customresourcedefinition"]

structure CommandValidationResult where
  is_safe : Bool
  blocked_reason : Option String
deriving DecidableEq

/-- Model of `KubectlSecurityValidator.validate_command`: lowercase and strip the
command; reject the empty result, any result that does not start with the
text `kubectl`, and any result containing a forbidden substring. -/
def validate_command (command : String) : CommandValidationResult :=
  let command_lower := stripStr (lowerStr command)
  if command_lower = "" then
    ⟨false, some "Empty command"⟩
  else if !startsWithStr "kubectl" command_lower then
    ⟨false, some "Non-kubectl command"⟩
  else
    match forbidden_commands.find? (fun f => containsSub f command_lower) with
    | some f => ⟨false, some f⟩
    | none => ⟨true, none⟩

/-! ## RealKubectlExecutor.execute_command

The subprocess is abstracted by an oracle `exec : String → Bool` giving the
success of a spawned child process for a given command line.  The Boolean
paired with the result records whether any child process was spawned.  The
source retries a failed command up to `max_retries` times; under a fixed
oracle every retry returns the same outcome, so the returned result equals
the first attempt's result and the retry loop is collapsed (it never changes
the final `ExecutionResult`). -/

structure ExecutionResult where
  success : Bool
  exit_code : Int
  command : String
deriving DecidableEq

def execute_command (dry_run : Bool) (exec : String → Bool) (command : String) :
    ExecutionResult × Bool :=
  let validation := validate_command command
  if validation.is_safe = false then
    (⟨false, -1, command⟩, false)
  else if dry_run then
    (⟨true, 0, command⟩, false)
  else if exec command then
    (⟨true, 0, command⟩, true)
  else
    (⟨false, 1, command⟩, true)

/-- Model of `execute_command_sequence`: run commands in order; append each result;
stop after the first failure when `stop_on_failure` is set. -/
def execute_command_sequence (dry_run : Bool) (exec : String → Bool)
    (stop_on_failure : Bool) : List String → List ExecutionResult
  | [] => []
  | c :: rest =>
    let r := (execute_command dry_run exec c).1
    if !r.success && stop_on_failure then [r]
    else r :: execute_command_sequence dry_run exec stop_on_failure rest

/-- The AI-generated command dictionary: the four phase keys, each possibly
absent (Python `category in commands_dict`). -/
structure CommandsDict where
  backup_commands : Option (List String)
  fix_commands : Option (List String)
  validation_commands : Option (List String)
  rollback_commands : Option (List String)
deriving DecidableEq

def CommandsDict.get (d : CommandsDict) : String → Option (List String)
  | "backup_commands" => d.backup_commands
  | "fix_commands" => d.fix_commands
  | "validation_commands" => d.validation_commands
  | "rollback_commands" => d.rollback_commands
  | _ => none

/-- The flag `stop_on_failure` holds for the backup and fix phases only. -/
def stopOnFailureFor (category : String) : Bool :=
  category = "backup_commands" || category = "fix_commands"

/-- The loop body of `execute_kubectl_commands_dict`: iterate the execution
order; a category runs when present and non-empty; after the fix category,
if some fix command failed and the dictionary has a rollback key, run the
rollback commands and break out of the loop (skipping validation).  The
result is the insertion-ordered dictionary of per-category results. -/
def runCategoryLoop (dry_run : Bool) (exec : String → Bool) (d : CommandsDict) :
    List String → List (String × List ExecutionResult)
  | [] => []
  | cat :: rest =>
    match d.get cat with
    | none => runCategoryLoop dry_run exec d rest
    | some cmds =>
      if cmds.isEmpty then runCategoryLoop dry_run exec d rest
      else
        let results := execute_command_sequence dry_run exec (stopOnFailureFor cat) cmds
        if cat = "fix_commands" && results.any (fun r => !r.success)
            && (d.get "rollback_commands").isSome then
          [(cat, results),
           ("rollback_commands",
            execute_command_sequence dry_run exec false
              ((d.get "rollback_commands").getD []))]
        else (cat, results) :: runCategoryLoop dry_run exec d rest

/-- Model of `execute_kubectl_commands_dict`: the phase loop over the literal
execution order from the source, `backup -> fix -> validation -> rollback`. -/
def execute_kubectl_commands_dict (dry_run : Bool) (exec : String → Bool)
    (d : CommandsDict) : List (String × List ExecutionResult) :=
  runCategoryLoop dry_run exec d
    ["backup_commands", "fix_commands", "validation_commands", "rollback_commands"]

example : validate_command "kubectl get pods" =
    ⟨true, none⟩ := by decide

example : validate_command "kubectl delete namespace prod" =
    ⟨false, some "delete namespace"⟩ := by decide

/-! ## PerformanceTracker.calculate_dynamic_confidence (performance_tracker.py)

A row of `performance_history` as seen by the query (success flag,
resolution time which may be SQL NULL, and the timestamp, represented by the
sample's age in hours at calculation time).  The query orders by timestamp
descending, so the history list is most-recent-first and `LIMIT window`
becomes `List.take`. -/

structure PerfSample where
  success : Bool
  resolution_time : Option ℚ
  age_hours : ℚ
deriving DecidableEq

/-- Number of successful samples in a list. -/
def succCount (l : List PerfSample) : Nat := (l.filter (fun s => s.success)).length

/-- Mean success over a list of samples (0 when empty, matching the
guarded uses below). -/
def succRate (l : List PerfSample) : ℚ := (succCount l : ℚ) / l.length

/-- Model of `calculate_dynamic_confidence`: recency-weighted success rate plus a
trend factor and a resolution-time factor, clamped to [0.05, 0.95]; 0.5 when
the strategy has no samples. -/
def calculate_dynamic_confidence (history : List PerfSample)
    (recent_window : Nat) : ℚ :=
  let recent_data := history.take recent_window
  if recent_data.isEmpty then 1/2
  else
    let base_success_rate := succRate recent_data
    let weightOf := fun (s : PerfSample) => max (1/10) (1 - s.age_hours / 168)
    let weighted_success :=
      (recent_data.map (fun s => if s.success then weightOf s else 0)).sum
    let total_weight := (recent_data.map weightOf).sum
    let weighted_success_rate :=
      if 0 < total_weight then weighted_success / total_weight
      else base_success_rate
    let trend_factor :=
      if 5 ≤ recent_data.length then
        let recent_half := recent_data.take (recent_data.length / 2)
        let older_half := recent_data.drop (recent_data.length / 2)
        min (1/5) (max (-(1/5)) (succRate recent_half - succRate older_half))
      else 0
    let resolution_times := recent_data.filterMap (fun s => s.resolution_time)
    let time_factor :=
      if resolution_times.isEmpty then 0
      else
        let avg_resolution := resolution_times.sum / resolution_times.length
        max (-(1/10)) (min (1/10) ((60 - avg_resolution) / 600))
    min (19/20) (max (1/20) (weighted_success_rate + trend_factor + time_factor))

example : calculate_dynamic_confidence [] 10 = 1/2 := by
  with_unfolding_all rfl

example : calculate_dynamic_confidence
    [⟨false, some 30, 0⟩] 10 = 1/20 := by
  with_unfolding_all rfl

/-! ## StrategyDatabase.update_strategy_performance (strategy_db.py)

The three tables of the strategy store.  The `namespace` column is called
`ns` because `namespace` is a Lean keyword.  Timestamps are abstract ticks
(`Nat`).  Only the columns that the claims touch are carried; the JSON
condition/action blobs play no role in `update_strategy_performance`. -/

structure UsageRecord where
  strategy_id : String
  pod_name : String
  ns : String
  success : Bool
  execution_time : ℚ
  feedback : Option String
  timestamp : Nat
deriving DecidableEq

structure StrategyRow where
  id : String
  error_type : String
  confidence : ℚ
  success_rate : ℚ
  usage_count : Nat
  updated_at : Nat
  last_used : Option Nat
deriving DecidableEq

structure EvolutionEntry where
  strategy_id : String
  version : Nat
  change_type : String
  new_confidence : ℚ
deriving DecidableEq

structure StrategyDatabase where
  strategies : List StrategyRow
  strategy_usage : List UsageRecord
  strategy_evolution : List EvolutionEntry
deriving DecidableEq

/-- The aggregate `AVG(CAST(success AS FLOAT))` over a set of usage records, with the
source's `or 0.0` fallback when the aggregate is NULL (no rows). -/
def usageSuccessMean (recs : List UsageRecord) : ℚ :=
  if recs.isEmpty then 0
  else ((recs.filter (fun r => r.success)).length : ℚ) / recs.length

/-- The row update applied to the matched strategy.  The source issues two
consecutive `UPDATE` statements (statistics, then confidence); their combined
effect on the row is this single record update.  Note the confidence
subquery's `ORDER BY ... LIMIT 10` applies to the single aggregate output
row, not to the rows being averaged, so `recent_success` is the mean over
ALL usage records of the strategy — the same value as `success_rate`. -/
def updateMatchedRow (sr new_confidence : ℚ) (now : Nat) (row : StrategyRow) :
    StrategyRow :=
  { row with
    usage_count := row.usage_count + 1
    success_rate := sr
    updated_at := now
    last_used := some now
    confidence := new_confidence }

/-- Model of `update_strategy_performance`: insert a usage record; bump the strategy
row's statistics from the mean over all of its usage records; set its
confidence to `min(0.95, max(0.1, recent_success * 0.9 + 0.1))`; append a
`performance_update` evolution entry whose version is the count of prior
evolution entries for this strategy plus one. -/
def update_strategy_performance (db : StrategyDatabase) (strategy_id : String)
    (success : Bool) (execution_time : ℚ) (pod_name ns : String)
    (feedback : Option String) (now : Nat) : StrategyDatabase :=
  let usage2 := db.strategy_usage ++
    [(⟨strategy_id, pod_name, ns, success, execution_time, feedback, now⟩ : UsageRecord)]
  let forId := usage2.filter (fun r => r.strategy_id = strategy_id)
  let sr := usageSuccessMean forId
  let recent_success := usageSuccessMean forId
  let new_confidence := min (19/20) (max (1/10) (recent_success * (9/10) + 1/10))
  let version :=
    (db.strategy_evolution.filter (fun e => e.strategy_id = strategy_id)).length + 1
  { strategies := db.strategies.map (fun row =>
      if row.id = strategy_id then updateMatchedRow sr new_confidence now row
      else row)
    strategy_usage := usage2
    strategy_evolution := db.strategy_evolution ++
      [⟨strategy_id, version, "performance_update", new_confidence⟩] }

/-! ## EpisodicMemoryManager (episodic_memory.py)

Episodes carry only the columns the retrieval and association logic reads:
identifier, error class, context (a Python dict, modelled as an association
list of string keys and values), and the timestamp (rationals ordered like
the ISO strings in the table).  A context key's value is looked up with
`List.lookup`, matching dict access. -/

structure Episode where
  id : String
  error_type : String
  context : List (String × String)
  timestamp : ℚ
deriving DecidableEq

/-- The distinct keys of a context (the Python dict key set). -/
def contextKeys (c : List (String × String)) : List String :=
  (c.map Prod.fst).dedup

/-- The key intersection `set(context1.keys()) & set(context2.keys())`. -/
def commonKeys (c1 c2 : List (String × String)) : List String :=
  (contextKeys c1).filter (fun k => (c2.map Prod.fst).contains k)

/-- The number of common keys whose values agree in the two contexts. -/
def matchCount (c1 c2 : List (String × String)) : Nat :=
  ((commonKeys c1 c2).filter (fun k => c1.lookup k == c2.lookup k)).length

/-- Model of `_calculate_context_similarity`: 0 for an empty context or an empty key
intersection, otherwise matching common keys over all common keys. -/
def calculate_context_similarity (c1 c2 : List (String × String)) : ℚ :=
  if c1.isEmpty || c2.isEmpty then 0
  else if (commonKeys c1 c2).isEmpty then 0
  else (matchCount c1 c2 : ℚ) / (commonKeys c1 c2).length

/-- The specification's wording of context similarity: the number of shared
keys whose values are equal divided by the size of the key intersection,
and 0 when that intersection is empty. -/
def claim_context_similarity (c1 c2 : List (String × String)) : ℚ :=
  if (commonKeys c1 c2).isEmpty then 0
  else (matchCount c1 c2 : ℚ) / (commonKeys c1 c2).length

/-! Python `list.sort(key=..., reverse=True)` is a stable descending sort.
`insertDesc` places an element after every element with a strictly larger
key and before the first element whose key is not larger, which together
with right-to-left insertion (`sortDesc`) reproduces stability. -/

def insertDesc (key : α → ℚ) (x : α) : List α → List α
  | [] => [x]
  | h :: t => if key x < key h then h :: insertDesc key x t else x :: h :: t

def sortDesc (key : α → ℚ) : List α → List α
  | [] => []
  | x :: xs => insertDesc key x (sortDesc key xs)

/-- Model of `get_similar_episodes`: select the episodes of the queried error class,
most recent first (the SQL `ORDER BY timestamp DESC`), keep the first
`limit * 2`, rank them by context similarity to the queried context
(descending, stable), and return the first `limit`.  The source's threshold
test is `if similarity > 0.1 or True`, which accepts every candidate, so no
similarity filter is applied. -/
def get_similar_episodes (episodes : List Episode) (error_type : String)
    (context : List (String × String)) (limit : Nat) : List Episode :=
  let sameClass := episodes.filter (fun e => e.error_type == error_type)
  let recentFirst := (sortDesc Episode.timestamp sameClass).take (limit * 2)
  let ranked :=
    sortDesc (fun e => calculate_context_similarity context e.context) recentFirst
  ranked.take limit

/-- A row of `memory_associations`. -/
structure MemoryAssociation where
  episode_id_1 : String
  episode_id_2 : String
  association_type : String
  strength : ℚ
deriving DecidableEq

/-- Model of `_create_associations`, run by `store_episode` after the new episode has
been inserted: retrieve the 5 most similar episodes of the same error class
(the query now also sees the new episode itself, hence the identifier
filter) and store a `similar_context` association per retrieved episode,
with strength equal to the context similarity — no threshold is applied. -/
def create_associations (episodes : List Episode) (episode : Episode) :
    List MemoryAssociation :=
  ((get_similar_episodes (episodes ++ [episode]) episode.error_type
      episode.context 5).filter (fun e => e.id ≠ episode.id)).map
    (fun e => ⟨episode.id, e.id, "similar_context",
      calculate_context_similarity episode.context e.context⟩)

example : calculate_context_similarity
    [("namespace", "default"), ("pod_name", "a")]
    [("namespace", "default"), ("pod_name", "b")] = 1/2 := by
  with_unfolding_all rfl

example : create_associations
    [⟨"e1", "OOMKilled", [("a", "1")], 1⟩]
    ⟨"e2", "OOMKilled", [("b", "2")], 2⟩ =
    [⟨"e2", "e1", "similar_context", 0⟩] := by
  with_unfolding_all rfl

/-! ## ObservationEngine._assess_observation_quality (observe.py)

The five observation axes are Python dicts; the quality rubric only tests
their truthiness, so each axis is modelled as an association list and
truthiness as non-emptiness. -/

structure ObservationMetrics where
  success_metrics : List (String × String)
  performance_metrics : List (String × String)
  context_factors : List (String × String)
  comparative_analysis : List (String × String)
  anomaly_detection : List (String × String)
deriving DecidableEq

/-- Model of `_assess_observation_quality`: start from 0 and add 0.3 when success
metrics are non-empty, then 0.2 each for performance metrics, context
factors and comparative analysis, then 0.1 for anomaly detection. -/
def assess_observation_quality (o : ObservationMetrics) : ℚ :=
  let s1 : ℚ := if o.success_metrics.isEmpty then 0 else 3/10
  let s2 := if o.performance_metrics.isEmpty then s1 else s1 + 2/10
  let s3 := if o.context_factors.isEmpty then s2 else s2 + 2/10
  let s4 := if o.comparative_analysis.isEmpty then s3 else s3 + 2/10
  let s5 := if o.anomaly_detection.isEmpty then s4 else s4 + 1/10
  s5

/-- The number of the five observation axes that produced non-empty data. -/
def nonEmptyAxes (o : ObservationMetrics) : Nat :=
  ([o.success_metrics.isEmpty, o.performance_metrics.isEmpty,
    o.context_factors.isEmpty, o.comparative_analysis.isEmpty,
    o.anomaly_detection.isEmpty].filter (fun b => !b)).length

/-- The specification's wording of observation quality: the fraction of the
five axes that produced non-empty data. -/
def claim_observation_quality (o : ObservationMetrics) : ℚ :=
  (nonEmptyAxes o : ℚ) / 5

/-! ## Pod type detection (ai_command_generator.py / yaml_manifest_generator.py)

Both generators use the identical heuristic; `_is_deployment_managed` in the
manifest generator is the named form.  `splitOnHyphen` models Python
`str.split('-')` and `pythonIsAlnum` models `str.isalnum` (non-empty, all
characters alphanumeric; ASCII suffices for pod names). -/

def splitOnHyphen : List Char → List (List Char)
  | [] => [[]]
  | c :: rest =>
    match splitOnHyphen rest with
    | [] => [[]]
    | p :: ps => if c = '-' then [] :: p :: ps else (c :: p) :: ps

/-- Python `lst[-2:]`. -/
def lastTwo (l : List α) : List α := l.drop (l.length - 2)

/-- Python `str.isalnum`. -/
def pythonIsAlnum (p : List Char) : Bool := !p.isEmpty && p.all Char.isAlphanum

/-- Model of `_is_deployment_managed`: the name contains a hyphen, splits into at
least three parts, and at least one of the last two parts has length ≥ 5
and is alphanumeric after removing hyphens (`part.replace('-', '')`). -/
def is_deployment_managed (pod_name : String) : Bool :=
  let parts := splitOnHyphen pod_name.data
  pod_name.data.contains '-' && decide (3 ≤ parts.length) &&
    (lastTwo parts).any (fun part =>
      decide (5 ≤ part.length) && pythonIsAlnum (part.filter (fun c => c ≠ '-')))

/-- The specification's wording of pod type detection: at least three
hyphen-separated parts and the last two tokens each at least 5 characters
long and alphanumeric. -/
def claim_is_deployment_managed (pod_name : String) : Bool :=
  let parts := splitOnHyphen pod_name.data
  decide (3 ≤ parts.length) &&
    (lastTwo parts).all (fun part =>
      decide (5 ≤ part.length) && pythonIsAlnum part)

example : is_deployment_managed "nginx-deployment-abc123-xyz789" = true := by decide
example : is_deployment_managed "test-pod" = false := by decide
example : is_deployment_managed "api-abcdef-xk" = true := by decide
example : claim_is_deployment_managed "api-abcdef-xk" = false := by decide

/-! ## The orchestration graph (workflow.py)

The LangGraph state machine of `ReflexiveK8sWorkflow`, restricted to the
state fields that the routing functions and the claims read:
`retry_count`, `success`, `requires_human_intervention`,
`self_awareness_level`, the size of the in-state `strategy_database`, the
length of `reflection_history`, the error class, and the meta-reflection's
`actionable_insights` flag.  `attempts` counts executions of `execute_fix`
(a model artifact used to index the oracles).  External effects — the
kubectl execution outcome, the LLM-derived self-awareness value, the size of
the strategy dictionary written by the learning node, and the
meta-reflection quality verdict — are oracles.  Every node of the source
either leaves `retry_count` alone or never mentions it (verified against
`workflow.py`, `observe.py`, `reflect.py` and `learn.py`: the field is
initialised to 0 in `process_pod_error` and only ever read). -/

structure WorkflowState where
  retry_count : Nat
  success : Bool
  requires_human_intervention : Bool
  self_awareness_level : ℚ
  strategy_db_size : Nat
  reflection_count : Nat
  error_type : String
  meta_actionable : Bool
  attempts : Nat
deriving DecidableEq

inductive WorkflowNode where
  | analyzeError
  | strategySelection
  | decideStrategy
  | executeFix
  | observeOutcome
  | reflectOnAction
  | learnAndEvolve
  | metaReflect
  | humanEscalation
  | deepAnalysis
  | finished
deriving DecidableEq

structure WorkflowOracles where
  execSuccess : Nat → Bool
  awareness : Nat → ℚ
  dbSize : Nat → Nat
  metaActionable : Nat → Bool

/-- Node `_analyze_error_node`: fills analysis fields and workflow metadata; none
of the modelled fields change. -/
def analyze_error_node (s : WorkflowState) : WorkflowState := s

/-- Node `_intelligent_strategy_selection_node`: when `retry_count >= 5` force
completion (`success := True`, `requires_human_intervention := True`) and
return; otherwise select a strategy (outside the modelled fields). -/
def strategy_selection_node (s : WorkflowState) : WorkflowState :=
  if 5 ≤ s.retry_count then
    { s with success := true, requires_human_intervention := true }
  else s

/-- Node `_decide_strategy_node`: annotates the chosen strategy; no modelled
field changes. -/
def decide_strategy_node (s : WorkflowState) : WorkflowState := s

/-- Node `_execute_fix_node`: executes the generated fix and stores its outcome
in `state["success"]`. -/
def execute_fix_node (o : WorkflowOracles) (s : WorkflowState) : WorkflowState :=
  { s with success := o.execSuccess s.attempts, attempts := s.attempts + 1 }

/-- Node `observe_outcome_node`: writes the detailed observation and its quality;
no modelled field changes. -/
def observe_outcome_node (s : WorkflowState) : WorkflowState := s

/-- Router `_should_reflect`: the trigger list contains the literal `True`, so
`any(reflection_triggers)` holds and the node always routes to
`reflect_on_action`. -/
def should_reflect (_ : WorkflowState) : Bool := true

/-- Node `reflect_on_action_node`: appends to `reflection_history` and recomputes
`self_awareness_level` from the LLM reflection (oracle). -/
def reflect_on_action_node (o : WorkflowOracles) (s : WorkflowState) :
    WorkflowState :=
  { s with reflection_count := s.reflection_count + 1,
           self_awareness_level := o.awareness s.reflection_count }

/-- Node `learn_and_evolve_node`: rewrites `state["strategy_database"]` with the
updated strategies (oracle size); the other modelled fields are untouched. -/
def learn_and_evolve_node (o : WorkflowOracles) (s : WorkflowState) :
    WorkflowState :=
  { s with strategy_db_size := o.dbSize s.attempts }

/-- Router `_post_learning_routing`, translated clause for clause. -/
def post_learning_routing (s : WorkflowState) : WorkflowNode :=
  if s.success then WorkflowNode.finished
  else if s.retry_count < 3 &&
      (decide ((7:ℚ)/10 < s.self_awareness_level) && decide (0 < s.strategy_db_size)) then
    WorkflowNode.strategySelection
  else if s.retry_count < 3 && s.retry_count < 2 then
    WorkflowNode.strategySelection
  else if 2 ≤ s.retry_count && decide (s.self_awareness_level < (3:ℚ)/5) then
    WorkflowNode.metaReflect
  else if s.error_type ≠ "ImagePullBackOff" && s.error_type ≠ "CrashLoopBackOff" then
    WorkflowNode.deepAnalysis
  else WorkflowNode.humanEscalation

/-- Node `_meta_reflection_node`: with at least two past reflections the
meta-analysis sets `actionable_insights` from the average recent quality
(oracle); otherwise `actionable_insights` is false. -/
def meta_reflection_node (o : WorkflowOracles) (s : WorkflowState) :
    WorkflowState :=
  { s with meta_actionable :=
      if 2 ≤ s.reflection_count then o.metaActionable s.reflection_count
      else false }

/-- Router `_meta_reflection_routing`. -/
def meta_reflection_routing (s : WorkflowState) : WorkflowNode :=
  if s.meta_actionable then WorkflowNode.strategySelection
  else if 3 ≤ s.retry_count then WorkflowNode.humanEscalation
  else WorkflowNode.finished

/-- Node `_human_escalation_node`. -/
def human_escalation_node (s : WorkflowState) : WorkflowState :=
  { s with requires_human_intervention := true }

/-- Node `_deep_analysis_node`: marks `deep_analysis_performed`; no modelled
field changes. -/
def deep_analysis_node (s : WorkflowState) : WorkflowState := s

/-- One LangGraph super-step: run the current node and follow its outgoing
(plain or conditional) edge, as wired in `_build_reflexive_workflow`. -/
def workflowStep (o : WorkflowOracles) :
    WorkflowNode × WorkflowState → WorkflowNode × WorkflowState
  | (WorkflowNode.analyzeError, s) =>
    (WorkflowNode.strategySelection, analyze_error_node s)
  | (WorkflowNode.strategySelection, s) =>
    (WorkflowNode.decideStrategy, strategy_selection_node s)
  | (WorkflowNode.decideStrategy, s) =>
    (WorkflowNode.executeFix, decide_strategy_node s)
  | (WorkflowNode.executeFix, s) =>
    (WorkflowNode.observeOutcome, execute_fix_node o s)
  | (WorkflowNode.observeOutcome, s) =>
    let s2 := observe_outcome_node s
    (if should_reflect s2 then WorkflowNode.reflectOnAction
     else WorkflowNode.learnAndEvolve, s2)
  | (WorkflowNode.reflectOnAction, s) =>
    (WorkflowNode.learnAndEvolve, reflect_on_action_node o s)
  | (WorkflowNode.learnAndEvolve, s) =>
    let s2 := learn_and_evolve_node o s
    (post_learning_routing s2, s2)
  | (WorkflowNode.metaReflect, s) =>
    let s2 := meta_reflection_node o s
    (meta_reflection_routing s2, s2)
  | (WorkflowNode.humanEscalation, s) =>
    (WorkflowNode.finished, human_escalation_node s)
  | (WorkflowNode.deepAnalysis, s) =>
    (WorkflowNode.strategySelection, deep_analysis_node s)
  | (WorkflowNode.finished, s) => (WorkflowNode.finished, s)

/-- The initial workflow state built by `process_pod_error`. -/
def initialWorkflowState (error_type : String) : WorkflowState :=
  { retry_count := 0
    success := false
    requires_human_intervention := false
    self_awareness_level := 1/2
    strategy_db_size := 0
    reflection_count := 0
    error_type := error_type
    meta_actionable := false
    attempts := 0 }

/-- The configuration after `n` super-steps of the graph on an incident of
the given error class. -/
def runWorkflow (o : WorkflowOracles) (error_type : String) :
    Nat → WorkflowNode × WorkflowState
  | 0 => (WorkflowNode.analyzeError, initialWorkflowState error_type)
  | n + 1 => workflowStep o (runWorkflow o error_type n)

/-- How many of the first `n` configurations sit at a given node (the node
is executed during the following super-step, and LangGraph's
`recursion_limit` of 50 bounds the number of super-steps). -/
def countNodeVisits (o : WorkflowOracles) (error_type : String)
    (node : WorkflowNode) (n : Nat) : Nat :=
  ((List.range n).filter
    (fun k => (runWorkflow o error_type k).1 = node)).length

/-- Oracles for an incident whose every kubectl fix attempt fails, with the
reflection engine reporting a neutral self-awareness and the learning node
storing no strategies. -/
def failingOracles : WorkflowOracles :=
  { execSuccess := fun _ => false
    awareness := fun _ => 1/2
    dbSize := fun _ => 0
    metaActionable := fun _ => false }

example : countNodeVisits failingOracles "ImagePullBackOff"
    WorkflowNode.executeFix 50 = 8 := by with_unfolding_all decide

/-! ## Claim theorems -/

/-- C4: for every history of performance samples and every window size, the
Performance Tracker's dynamic confidence lies in the closed interval
[0.05, 0.95], and with no recorded samples it is exactly 0.5. -/
theorem calculate_dynamic_confidence_bounds (history : List PerfSample)
    (recent_window : Nat) :
    1/20 ≤ calculate_dynamic_confidence history recent_window ∧
    calculate_dynamic_confidence history recent_window ≤ 19/20 ∧
    calculate_dynamic_confidence [] recent_window = 1/2 := by
  refine ⟨?_, ?_, by simp [calculate_dynamic_confidence]⟩
  · simp only [calculate_dynamic_confidence]
    split
    · norm_num
    · exact le_min (by norm_num) (le_max_left _ _)
  · simp only [calculate_dynamic_confidence]
    split
    · norm_num
    · exact min_le_left _ _

/-- C2 (amended): a command that strips to the empty string, or whose
lowercased stripped text does not begin with the prefix `kubectl`, or which
contains one of the six forbidden cluster-scoped operations, never spawns a
child process; the executor reports a validation failure instead. -/
theorem validator_blocks_before_spawn (command : String) (dry_run : Bool)
    (exec : String → Bool)
    (h : stripStr (lowerStr command) = "" ∨
         startsWithStr "kubectl" (stripStr (lowerStr command)) = false ∨
         spec_forbidden_operations.any
           (fun f => containsSub f (stripStr (lowerStr command))) = true) :
    (execute_command dry_run exec command).2 = false ∧
    (execute_command dry_run exec command).1.success = false ∧
    (execute_command dry_run exec command).1.exit_code = -1 := by
  have hv : (validate_command command).is_safe = false := by
    unfold validate_command
    rcases h with h | h | h
    · simp [h]
    · by_cases hc : stripStr (lowerStr command) = ""
      · simp [hc]
      · simp only [hc, if_false, h]
        simp
    · by_cases hc : stripStr (lowerStr command) = ""
      · simp [hc]
      · by_cases hk : startsWithStr "kubectl" (stripStr (lowerStr command))
        · obtain ⟨f, hmem, hsub⟩ := List.any_eq_true.mp h
          have hmem2 : f ∈ forbidden_commands :=
            (by decide :
              ∀ g ∈ spec_forbidden_operations, g ∈ forbidden_commands) f hmem
          have hfind : (forbidden_commands.find?
              (fun g => containsSub g (stripStr (lowerStr command)))).isSome := by
            rw [List.find?_isSome]
            exact ⟨f, hmem2, hsub⟩
          obtain ⟨g, hg⟩ := Option.isSome_iff_exists.mp hfind
          simp [hc, hk, hg]
        · simp [hc, hk]
  unfold execute_command
  simp [hv]

/-- C2 witness: the non-kubectl command `rm -rf /tmp/x` is blocked without
spawning a process. -/
theorem validator_blocks_before_spawn_witness :
    (execute_command false (fun _ => true) "rm -rf /tmp/x").2 = false ∧
    (execute_command false (fun _ => true) "rm -rf /tmp/x").1.success = false ∧
    (execute_command false (fun _ => true) "rm -rf /tmp/x").1.exit_code = -1 :=
  validator_blocks_before_spawn "rm -rf /tmp/x" false (fun _ => true)
    (Or.inr (Or.inl (by decide)))

/-- C2 counterexample: `kubectlx get pods` has a leading token different
from the cluster CLI `kubectl`, yet the validator accepts it (the code tests
a string prefix, not the leading token), and a child process is spawned for
it. -/
theorem nonkubectl_leading_token_spawns :
    leadingToken (stripStr (lowerStr "kubectlx get pods")) ≠ "kubectl" ∧
    (execute_command false (fun _ => true) "kubectlx get pods").2 = true ∧
    (execute_command false (fun _ => true) "kubectlx get pods").1.success = true := by
  decide

/-- A command plan whose fix phase succeeds and which carries a rollback
phase, executed against a cluster where every command exits 0. -/
def demoPlan : CommandsDict :=
  { backup_commands := some ["kubectl get pod demo -n default -o yaml"]
    fix_commands := some ["kubectl delete pod demo -n default",
                          "kubectl run demo --image=nginx:latest -n default"]
    validation_commands := some ["kubectl get pod demo -n default"]
    rollback_commands := some ["kubectl delete pod demo -n default"] }

/-- C1: the phase loop runs `backup, fix, validation` in order, but because
`rollback_commands` is the fourth entry of the unconditional execution
order, the rollback phase also runs when every fix command succeeded —
contradicting the claim that rollback commands are executed iff at least one
fix command failed (and the source's own comment `rollback (if needed)`). -/
theorem rollback_executed_after_successful_fix :
    ((execute_kubectl_commands_dict false (fun _ => true) demoPlan).map
      Prod.fst =
      ["backup_commands", "fix_commands", "validation_commands",
       "rollback_commands"]) ∧
    ((((execute_kubectl_commands_dict false (fun _ => true) demoPlan).lookup
        "fix_commands").getD []).all (fun r => r.success)) = true ∧
    (((execute_kubectl_commands_dict false (fun _ => true) demoPlan).lookup
        "rollback_commands") ≠ none) := by
  decide

/-- C3: with an incident whose every fix attempt fails, the orchestration
graph executes `execute_fix` 8 times within LangGraph's recursion limit of
50 super-steps — more than the claimed hard cap of 5 retries — because
`retry_count` is never incremented: it stays 0 at every reachable
configuration, the `retry_count >= 5` guard never fires, post-learning
routing always answers `retry`, and the `human_escalation` node is never
entered. -/
theorem retry_cap_never_enforced :
    countNodeVisits failingOracles "ImagePullBackOff"
      WorkflowNode.executeFix 50 = 8 ∧
    5 < countNodeVisits failingOracles "ImagePullBackOff"
      WorkflowNode.executeFix 50 ∧
    ((List.range 50).all (fun k =>
      (runWorkflow failingOracles "ImagePullBackOff" k).2.retry_count == 0)) = true ∧
    ((List.range 50).all (fun k =>
      !((runWorkflow failingOracles "ImagePullBackOff" k).1 ==
        WorkflowNode.humanEscalation))) = true ∧
    (runWorkflow failingOracles "ImagePullBackOff" 50).2.requires_human_intervention
      = false := by
  with_unfolding_all decide

/-- Every super-step of the graph preserves `retry_count`. -/
theorem workflowStep_retry_count (o : WorkflowOracles)
    (c : WorkflowNode × WorkflowState) :
    (workflowStep o c).2.retry_count = c.2.retry_count := by
  obtain ⟨node, s⟩ := c
  cases node <;>
    first
      | rfl
      | (show (strategy_selection_node s).retry_count = s.retry_count
         unfold strategy_selection_node
         split <;> rfl)

/-- C10: no node of the orchestration graph assigns to `retry_count` (each
node transformer leaves the field unchanged), and consequently every
configuration reachable from the initial state of `process_pod_error` has
`retry_count = 0`, so every routing comparison of `retry_count` against a
threshold is evaluated at 0. -/
theorem retry_count_always_zero (o : WorkflowOracles) (error_type : String)
    (n : Nat) (s : WorkflowState) :
    (analyze_error_node s).retry_count = s.retry_count ∧
    (strategy_selection_node s).retry_count = s.retry_count ∧
    (decide_strategy_node s).retry_count = s.retry_count ∧
    (execute_fix_node o s).retry_count = s.retry_count ∧
    (observe_outcome_node s).retry_count = s.retry_count ∧
    (reflect_on_action_node o s).retry_count = s.retry_count ∧
    (learn_and_evolve_node o s).retry_count = s.retry_count ∧
    (meta_reflection_node o s).retry_count = s.retry_count ∧
    (human_escalation_node s).retry_count = s.retry_count ∧
    (deep_analysis_node s).retry_count = s.retry_count ∧
    (runWorkflow o error_type n).2.retry_count = 0 := by
  have hsel : (strategy_selection_node s).retry_count = s.retry_count := by
    unfold strategy_selection_node
    split <;> rfl
  have hrun : (runWorkflow o error_type n).2.retry_count = 0 := by
    induction n with
    | zero => rfl
    | succ m ih =>
      show (workflowStep o (runWorkflow o error_type m)).2.retry_count = 0
      rw [workflowStep_retry_count]
      exact ih
  exact ⟨rfl, hsel, rfl, rfl, rfl, rfl, rfl, rfl, rfl, rfl, hrun⟩

/-- An observation in which only the success-metrics axis produced data. -/
def obsOnlySuccess : ObservationMetrics :=
  { success_metrics := [("pod_status", "Running")]
    performance_metrics := []
    context_factors := []
    comparative_analysis := []
    anomaly_detection := [] }

/-- C9 counterexample: with exactly one (the success-metrics) axis
non-empty, the recorded quality is 0.3, while the fraction of non-empty
axes is 1/5. -/
theorem observation_quality_not_axis_fraction :
    assess_observation_quality obsOnlySuccess = 3/10 ∧
    claim_observation_quality obsOnlySuccess = 1/5 ∧
    ((3:ℚ)/10) ≠ 1/5 :=
  ⟨by with_unfolding_all rfl, by with_unfolding_all rfl, by norm_num⟩

/-- C9 (amended): the recorded observation quality is the weighted
completeness score 0.3·[success metrics non-empty] + 0.2·[performance
metrics non-empty] + 0.2·[context factors non-empty] + 0.2·[comparative
analysis non-empty] + 0.1·[anomaly detection non-empty], a value in [0, 1] —
not the uniform fraction k/5 of non-empty axes. -/
theorem observation_quality_weighted (o : ObservationMetrics) :
    assess_observation_quality o =
      (if o.success_metrics.isEmpty then 0 else 3/10) +
      (if o.performance_metrics.isEmpty then 0 else 2/10) +
      (if o.context_factors.isEmpty then 0 else 2/10) +
      (if o.comparative_analysis.isEmpty then 0 else 2/10) +
      (if o.anomaly_detection.isEmpty then 0 else 1/10) ∧
    0 ≤ assess_observation_quality o ∧
    assess_observation_quality o ≤ 1 := by
  refine ⟨?_, ?_, ?_⟩ <;>
    · simp only [assess_observation_quality]
      split_ifs <;> norm_num

/-- C6 counterexample: the pod name `api-abcdef-xk` has three
hyphen-separated parts whose last token `xk` is shorter than 5 characters,
so the claim classifies it standalone, yet the code classifies it
deployment-managed, because the code requires only one of the last two
tokens (`any`) to look like a hash, not both. -/
theorem pod_type_any_vs_all :
    is_deployment_managed "api-abcdef-xk" = true ∧
    claim_is_deployment_managed "api-abcdef-xk" = false := by decide

theorem splitOnHyphen_ne_nil (l : List Char) : splitOnHyphen l ≠ [] := by
  cases l with
  | nil => simp [splitOnHyphen]
  | cons c rest =>
    rw [splitOnHyphen]
    cases h : splitOnHyphen rest with
    | nil => simp
    | cons p ps =>
      dsimp only
      split <;> simp

theorem splitOnHyphen_length (l : List Char) :
    (splitOnHyphen l).length = l.count '-' + 1 := by
  induction l with
  | nil => simp [splitOnHyphen]
  | cons c rest ih =>
    rw [splitOnHyphen]
    cases h : splitOnHyphen rest with
    | nil => exact absurd h (splitOnHyphen_ne_nil rest)
    | cons p ps =>
      rw [h] at ih
      dsimp only
      split
      case isTrue hc =>
        subst hc
        simp [List.count_cons] at ih ⊢
        omega
      case isFalse hc =>
        simp [List.count_cons, hc] at ih ⊢
        omega

theorem splitOnHyphen_no_hyphen (l : List Char) (p : List Char)
    (hp : p ∈ splitOnHyphen l) : '-' ∉ p := by
  induction l generalizing p with
  | nil =>
    simp [splitOnHyphen] at hp
    simp [hp]
  | cons c rest ih =>
    rw [splitOnHyphen] at hp
    cases h : splitOnHyphen rest with
    | nil => exact absurd h (splitOnHyphen_ne_nil rest)
    | cons q qs =>
      rw [h] at hp
      dsimp only at hp
      split at hp
      case isTrue hc =>
        rcases List.mem_cons.mp hp with rfl | hmem
        · simp
        · exact ih p (by rw [h]; exact hmem)
      case isFalse hc =>
        rcases List.mem_cons.mp hp with rfl | hmem
        · intro hcontra
          rcases List.mem_cons.mp hcontra with heq | hmem2
          · exact hc heq.symm
          · exact ih q (by rw [h]; exact List.mem_cons_self q qs) hmem2
        · exact ih p (by rw [h]; exact List.mem_cons_of_mem q hmem)

/-- C6 (amended): the generators classify a pod as deployment-managed iff
its name has at least three hyphen-separated parts and AT LEAST ONE of the
last two tokens is at least 5 characters long and alphanumeric (the code
uses `any` over the last two tokens, not `all`); every other name is
classified standalone. -/
theorem pod_type_detection_characterization (pod_name : String) :
    is_deployment_managed pod_name = true ↔
      (3 ≤ (splitOnHyphen pod_name.data).length ∧
       ∃ p ∈ lastTwo (splitOnHyphen pod_name.data),
         5 ≤ p.length ∧ ∀ c ∈ p, c.isAlphanum = true) := by
  have hfil : ∀ p ∈ splitOnHyphen pod_name.data,
      p.filter (fun c => c ≠ '-') = p := by
    intro p hp
    refine List.filter_eq_self.mpr ?_
    intro a ha
    have := splitOnHyphen_no_hyphen pod_name.data p hp
    simp only [decide_eq_true_eq]
    intro heq
    exact this (heq ▸ ha)
  unfold is_deployment_managed
  simp only [Bool.and_eq_true, List.any_eq_true, decide_eq_true_eq]
  constructor
  · rintro ⟨⟨hhy, hlen⟩, p, hp, hcond⟩
    have hmem : p ∈ splitOnHyphen pod_name.data := List.mem_of_mem_drop hp
    rw [hfil p hmem] at hcond
    simp only [pythonIsAlnum, Bool.and_eq_true, decide_eq_true_eq,
      List.all_eq_true] at hcond
    obtain ⟨hplen, _, hall⟩ := hcond
    exact ⟨hlen, p, hp, hplen, hall⟩
  · rintro ⟨hlen, p, hp, hplen, hall⟩
    have hmem : p ∈ splitOnHyphen pod_name.data := List.mem_of_mem_drop hp
    have hcount : 0 < pod_name.data.count '-' := by
      have := splitOnHyphen_length pod_name.data
      omega
    refine ⟨⟨?_, hlen⟩, p, hp, ?_⟩
    · have hm : '-' ∈ pod_name.data := List.count_pos_iff.mp hcount
      simpa [List.contains] using hm
    · rw [hfil p hmem]
      have hne : p ≠ [] := by
        intro hnil
        rw [hnil] at hplen
        simp at hplen
      simp only [pythonIsAlnum, Bool.and_eq_true, decide_eq_true_eq,
        List.all_eq_true]
      refine ⟨hplen, ?_, hall⟩
      simp [List.isEmpty_iff, hne]

/-- Updating the strategies table only rewrites the matched row: `find?` on
the identifier commutes with the row update. -/
theorem find?_updated_strategies (strategies : List StrategyRow)
    (strategy_id : String) (sr nc : ℚ) (now : Nat) :
    ((strategies.map (fun row =>
        if row.id = strategy_id then updateMatchedRow sr nc now row
        else row)).find? (fun r => r.id == strategy_id)) =
      (strategies.find? (fun r => r.id == strategy_id)).map
        (updateMatchedRow sr nc now) := by
  induction strategies with
  | nil => rfl
  | cons h t ih =>
    by_cases hid : h.id = strategy_id
    · simp [List.find?_cons, hid, updateMatchedRow]
    · simp [List.find?_cons, hid, ih]

/-- A strategy store holding one never-used strategy `s1`. -/
def sampleStrategyDB : StrategyDatabase :=
  { strategies := [⟨"s1", "OOMKilled", 1/2, 0, 0, 0, none⟩]
    strategy_usage := []
    strategy_evolution := [] }

/-- C5 counterexample: record one failed outcome (execution time 30 s) for
`s1`.  The store writes confidence `min(0.95, max(0.1, 0·0.9 + 0.1)) = 0.1`,
while the Performance Tracker's §4.3 dynamic confidence over the matching
fresh sample (failure, 30 s resolution, age 0) is 0.05 — so the stored
confidence does not equal the Tracker's dynamic confidence at update time. -/
theorem stored_confidence_differs_from_tracker :
    (((update_strategy_performance sampleStrategyDB "s1" false 30 "oom-pod"
        "default" none 1).strategies.find? (fun r => r.id == "s1")).map
      StrategyRow.confidence) = some (1/10) ∧
    calculate_dynamic_confidence [⟨false, some 30, 0⟩] 10 = 1/20 ∧
    ((1:ℚ)/10) ≠ 1/20 :=
  ⟨by with_unfolding_all rfl, by with_unfolding_all rfl, by norm_num⟩

/-- C5 (amended): for an existing strategy id, `update_strategy_performance`
appends exactly one usage record, appends exactly one evolution entry of
type `performance_update` (versioned as one plus the number of prior
entries for the id), and rewrites the strategy's row so that `usage_count`
is incremented by one, `success_rate` is the mean of the success flags over
all usage records of the id, `last_used` is the update time, and the stored
confidence is `min(0.95, max(0.1, 0.9·m + 0.1))` where `m` is that same
mean — a formula over the store's own usage records, not the Performance
Tracker's §4.3 dynamic confidence. -/
theorem update_strategy_performance_spec (db : StrategyDatabase)
    (strategy_id pod_name ns : String) (success : Bool) (execution_time : ℚ)
    (feedback : Option String) (now : Nat) (row : StrategyRow)
    (hrow : db.strategies.find? (fun r => r.id == strategy_id) = some row) :
    (update_strategy_performance db strategy_id success execution_time
        pod_name ns feedback now).strategy_usage =
      db.strategy_usage ++
        [(⟨strategy_id, pod_name, ns, success, execution_time, feedback, now⟩ : UsageRecord)] ∧
    (update_strategy_performance db strategy_id success execution_time
        pod_name ns feedback now).strategy_evolution =
      db.strategy_evolution ++
        [⟨strategy_id,
          (db.strategy_evolution.filter
            (fun e => e.strategy_id = strategy_id)).length + 1,
          "performance_update",
          min (19/20) (max (1/10)
            (usageSuccessMean ((db.strategy_usage ++
              [(⟨strategy_id, pod_name, ns, success, execution_time, feedback,
                now⟩ : UsageRecord)]).filter (fun r => r.strategy_id = strategy_id)) * (9/10)
              + 1/10))⟩] ∧
    (update_strategy_performance db strategy_id success execution_time
        pod_name ns feedback now).strategies.find?
        (fun r => r.id == strategy_id) =
      some { row with
        usage_count := row.usage_count + 1
        success_rate := usageSuccessMean ((db.strategy_usage ++
          [(⟨strategy_id, pod_name, ns, success, execution_time, feedback,
            now⟩ : UsageRecord)]).filter (fun r => r.strategy_id = strategy_id))
        updated_at := now
        last_used := some now
        confidence := min (19/20) (max (1/10)
          (usageSuccessMean ((db.strategy_usage ++
            [(⟨strategy_id, pod_name, ns, success, execution_time, feedback,
              now⟩ : UsageRecord)]).filter (fun r => r.strategy_id = strategy_id)) * (9/10)
            + 1/10)) } := by
  refine ⟨rfl, rfl, ?_⟩
  show ((db.strategies.map (fun r =>
      if r.id = strategy_id then updateMatchedRow _ _ now r else r)).find?
      (fun r => r.id == strategy_id)) = _
  rw [find?_updated_strategies, hrow]
  rfl

/-- C5 witness: in the one-strategy store, a successful outcome yields the
row with usage count 1, success rate 1, and confidence 0.95. -/
theorem update_strategy_performance_spec_witness :
    (update_strategy_performance sampleStrategyDB "s1" true 12 "oom-pod"
        "default" none 1).strategies.find? (fun r => r.id == "s1") =
      some ⟨"s1", "OOMKilled", 19/20, 1, 1, 1, some 1⟩ := by
  have h := (update_strategy_performance_spec sampleStrategyDB "s1" "oom-pod"
    "default" true 12 none 1 ⟨"s1", "OOMKilled", 1/2, 0, 0, 0, none⟩
    (by rfl)).2.2
  rw [h]
  with_unfolding_all rfl

theorem mem_insertDesc (key : α → ℚ) (x : α) (l : List α) (a : α) :
    a ∈ insertDesc key x l ↔ a = x ∨ a ∈ l := by
  induction l with
  | nil => simp [insertDesc]
  | cons h t ih =>
    rw [insertDesc]
    split
    · simp only [List.mem_cons, ih]
      tauto
    · simp only [List.mem_cons]

theorem mem_sortDesc (key : α → ℚ) (l : List α) (a : α) :
    a ∈ sortDesc key l ↔ a ∈ l := by
  induction l with
  | nil => simp [sortDesc]
  | cons x xs ih =>
    rw [sortDesc, mem_insertDesc]
    simp [ih]

/-- Inserting into a list sorted by the primary key (descending) and, among
equal primary keys, by the secondary key (descending), preserves that order
when the inserted element's secondary key dominates the list. -/
theorem pairwise_insertDesc (key key2 : α → ℚ) (x : α) (l : List α)
    (hl : List.Pairwise (fun a b =>
      key b < key a ∨ (key a = key b ∧ key2 b ≤ key2 a)) l)
    (hx : ∀ y ∈ l, key2 y ≤ key2 x) :
    List.Pairwise (fun a b =>
      key b < key a ∨ (key a = key b ∧ key2 b ≤ key2 a))
      (insertDesc key x l) := by
  induction l with
  | nil => simp [insertDesc]
  | cons h t ih =>
    rw [insertDesc]
    rcases List.pairwise_cons.mp hl with ⟨hh, ht⟩
    split
    case isTrue hlt =>
      refine List.pairwise_cons.mpr ⟨?_, ih ht
        (fun y hy => hx y (List.mem_cons_of_mem _ hy))⟩
      intro b hb
      rcases (mem_insertDesc key x t b).mp hb with rfl | hbt
      · exact Or.inl hlt
      · exact hh b hbt
    case isFalse hge =>
      have hhx : key h ≤ key x := not_lt.mp hge
      refine List.pairwise_cons.mpr ⟨?_, hl⟩
      intro b hb
      rcases List.mem_cons.mp hb with rfl | hbt
      · rcases lt_or_eq_of_le hhx with hlt2 | heq
        · exact Or.inl hlt2
        · exact Or.inr ⟨heq.symm, hx b (List.mem_cons_self b t)⟩
      · rcases hh b hbt with hlt2 | ⟨heq, _⟩
        · exact Or.inl (lt_of_lt_of_le hlt2 hhx)
        · rcases lt_or_eq_of_le (heq ▸ hhx) with hlt3 | heq3
          · exact Or.inl hlt3
          · exact Or.inr ⟨heq3.symm, hx b (List.mem_cons_of_mem h hbt)⟩

/-- A stable descending sort of a list already ordered (descending) by a
secondary key is ordered by the primary key with ties ordered by the
secondary key. -/
theorem pairwise_sortDesc (key key2 : α → ℚ) (l : List α)
    (hl : List.Pairwise (fun a b => key2 b ≤ key2 a) l) :
    List.Pairwise (fun a b =>
      key b < key a ∨ (key a = key b ∧ key2 b ≤ key2 a))
      (sortDesc key l) := by
  induction l with
  | nil => simp [sortDesc]
  | cons x xs ih =>
    rcases List.pairwise_cons.mp hl with ⟨hx, hxs⟩
    rw [sortDesc]
    exact pairwise_insertDesc key key2 x (sortDesc key xs) (ih hxs)
      (fun y hy => hx y ((mem_sortDesc key xs y).mp hy))

theorem pairwise_trivial_le (l : List α) :
    List.Pairwise (fun _ _ => (0:ℚ) ≤ 0) l := by
  induction l with
  | nil => exact List.Pairwise.nil
  | cons h t ih => exact List.pairwise_cons.mpr ⟨fun _ _ => le_refl 0, ih⟩

/-- Any list is timestamp-descending after `sortDesc Episode.timestamp`. -/
theorem pairwise_sortDesc_timestamp (l : List Episode) :
    List.Pairwise (fun a b => b.timestamp ≤ a.timestamp)
      (sortDesc Episode.timestamp l) := by
  have h := pairwise_sortDesc Episode.timestamp (fun _ => (0:ℚ)) l
    (pairwise_trivial_le l)
  exact h.imp (fun hab => by
    rcases hab with hlt | ⟨heq, _⟩
    · exact le_of_lt hlt
    · exact le_of_eq heq.symm)

/-- C7: the Episodic Memory retrieval returns only episodes of the queried
error class, ordered by descending context similarity with ties broken by
recency, and the similarity function agrees everywhere with the
specification's definition (shared equal-valued keys over the key
intersection, 0 on an empty intersection). -/
theorem get_similar_episodes_sound (episodes : List Episode)
    (error_type : String) (context : List (String × String)) (limit : Nat) :
    ((get_similar_episodes episodes error_type context limit).all
      (fun e => e.error_type == error_type)) = true ∧
    List.Pairwise (fun a b =>
      calculate_context_similarity context b.context <
        calculate_context_similarity context a.context ∨
      (calculate_context_similarity context a.context =
        calculate_context_similarity context b.context ∧
        b.timestamp ≤ a.timestamp))
      (get_similar_episodes episodes error_type context limit) ∧
    (∀ c1 c2,
      calculate_context_similarity c1 c2 = claim_context_similarity c1 c2) := by
  refine ⟨?_, ?_, ?_⟩
  · rw [List.all_eq_true]
    intro e he
    simp only [get_similar_episodes] at he
    have h1 := List.mem_of_mem_take he
    have h2 := (mem_sortDesc _ _ _).mp h1
    have h3 := List.mem_of_mem_take h2
    have h4 := (mem_sortDesc _ _ _).mp h3
    exact (List.mem_filter.mp h4).2
  · simp only [get_similar_episodes]
    refine List.Pairwise.sublist (List.take_sublist _ _) ?_
    refine pairwise_sortDesc _ Episode.timestamp _ ?_
    refine List.Pairwise.sublist (List.take_sublist _ _) ?_
    exact pairwise_sortDesc_timestamp _
  · intro c1 c2
    unfold calculate_context_similarity claim_context_similarity
    by_cases h1 : c1.isEmpty
    · have hc1 : c1 = [] := List.isEmpty_iff.mp h1
      subst hc1
      simp [commonKeys, contextKeys]
    · by_cases h2 : c2.isEmpty
      · have hc2 : c2 = [] := List.isEmpty_iff.mp h2
        subst hc2
        have hck : commonKeys c1 [] = [] := by
          simp [commonKeys]
        simp [h1, hck]
      · simp [h1, h2]

/-- The context similarity is always a value in [0, 1]. -/
theorem context_similarity_bounds (c1 c2 : List (String × String)) :
    0 ≤ calculate_context_similarity c1 c2 ∧
    calculate_context_similarity c1 c2 ≤ 1 := by
  unfold calculate_context_similarity
  split
  · norm_num
  · split
    · norm_num
    case isFalse h2 =>
      have hpos : 0 < ((commonKeys c1 c2).length : ℚ) := by
        have := List.isEmpty_iff.not.mp h2
        have hlen : 0 < (commonKeys c1 c2).length :=
          List.length_pos.mpr this
        exact_mod_cast hlen
      constructor
      · exact div_nonneg (by positivity) (le_of_lt hpos)
      · rw [div_le_one hpos]
        have hle : matchCount c1 c2 ≤ (commonKeys c1 c2).length :=
          List.length_filter_le _ _
        exact_mod_cast hle

/-- C8 (amended): storing a new episode creates `similar_context`
associations to (at most 5) retrieved episodes of the same error class,
excluding the episode itself, with strength equal to the context similarity
— a value in [0, 1]; no 0.5 threshold is applied, so strengths of 0.5 or
less are stored. -/
theorem create_associations_spec (episodes : List Episode)
    (episode : Episode) :
    (create_associations episodes episode).length ≤ 5 ∧
    ((create_associations episodes episode).all (fun a =>
      a.episode_id_1 == episode.id &&
      a.association_type == "similar_context" &&
      !(a.episode_id_2 == episode.id) &&
      decide (0 ≤ a.strength) && decide (a.strength ≤ 1))) = true := by
  constructor
  · have h1 : (create_associations episodes episode).length =
        ((get_similar_episodes (episodes ++ [episode]) episode.error_type
          episode.context 5).filter (fun e => e.id ≠ episode.id)).length := by
      simp only [create_associations, List.length_map]
    rw [h1]
    refine le_trans (List.length_filter_le _ _) ?_
    simp only [get_similar_episodes]
    exact List.length_take_le _ _
  · rw [List.all_eq_true]
    intro a ha
    simp only [create_associations, List.mem_map] at ha
    obtain ⟨e, he, rfl⟩ := ha
    have hne : e.id ≠ episode.id := by
      have := (List.mem_filter.mp he).2
      exact of_decide_eq_true this
    have hb := context_similarity_bounds episode.context e.context
    simp [hne, hb.1, hb.2, Ne.symm]

/-- C8 counterexample: a new episode whose context shares no key with the
only prior episode of its class still gets an association — with strength
0, not greater than 0.5 as the claim requires of every stored association. -/
theorem association_below_threshold_stored :
    create_associations [⟨"e1", "OOMKilled", [("a", "1")], 1⟩]
      ⟨"e2", "OOMKilled", [("b", "2")], 2⟩ =
      [⟨"e2", "e1", "similar_context", 0⟩] ∧
    ¬ ((0:ℚ) > 1/2) :=
  ⟨by with_unfolding_all rfl, by norm_num⟩
